import Mathlib

/-!
Shallow embedding of `automation/DataAggregator/BaseAggregator.py` (OpenWPM):
the `BaseListener` / `BaseAggregator` coordination core.

Modelling conventions:
- `multiprocess.Queue` channels become Lean `List`s (head = oldest element,
  `put` appends at the back, `get` pops the front).
- `time.time()` becomes an explicit `now : Nat` parameter; a method that reads
  the clock several times during one call is modelled as executing
  instantaneously at `now`.
- The abstract hook methods `process_record`, `process_content` and
  `visit_done` are modelled as recording their invocation in the state
  (`processed`, `content_processed`, `events`), since the base class only
  specifies *when* they are called, not what they do.
- Python exceptions become `Except`; an escaping exception carries the state
  at the moment of the raise, so side effects performed before the raise stay
  observable.
- `logging` calls append to a `log : List String` field on the listener state
  (the aggregator's logger calls are pure debug output on a process-global
  logger and are not modelled as aggregator state).
- An `events` ghost trace records completions, `visit_done` invocations and
  `browser_map` assignments in execution order, to state ordering properties.
-/

/-- `RECORD_TYPE_CONTENT = 'page_content'` (module constant). -/
def RECORD_TYPE_CONTENT : String := "page_content"

/-- `STATUS_TIMEOUT = 120  # seconds` (module constant). -/
def STATUS_TIMEOUT : Nat := 120

/-- `SHUTDOWN_SIGNAL = 'SHUTDOWN'` (module constant). -/
def SHUTDOWN_SIGNAL : String := "SHUTDOWN"

/-- `STATUS_UPDATE_INTERVAL = 5  # seconds` (module constant). -/
def STATUS_UPDATE_INTERVAL : Nat := 5

/-- The literal `3` in `time.sleep(3)` at the top of `drain_queue`. -/
def DRAIN_GRACE : Nat := 3

/-- A value travelling on the `status` channel: either the listener's bound
socket address (the rendezvous, first message) or an integer queue-depth
sample (all later messages). -/
inductive StatusValue where
  | address (host : String) (port : Nat)
  | sample (qsize : Nat)
deriving Repr, DecidableEq

/-- A record sitting in the listener's inbound `record_queue`: either a
structured record `(table_name, fields)` or a page-content blob record. -/
inductive RawRecord where
  | structured (table : String) (data : List (String × Int))
  | content (blob : List Nat) (contentHash : String)
deriving Repr, DecidableEq

/-- A Python exception escaping a modelled method. -/
inductive PyError where
  | typeError (msg : String)
  | runtimeError (msg : String)
deriving Repr, DecidableEq

/-- Ghost trace events of the listener's ingestion/finalization path, in
execution order. -/
inductive LEvent where
  | completion (visit_id : Int)
  | visitDone (visit_id : Int) (is_shutdown : Bool)
  | mapUpdate (crawl_id : Int) (visit_id : Int)
deriving Repr, DecidableEq

/-- `data['k']` on a Python dict modelled as an association list: the value at
the first matching key, `none` = `KeyError`. -/
def lookupKey (data : List (String × Int)) (k : String) : Option Int :=
  (data.find? (fun kv => kv.fst == k)).map (fun kv => kv.snd)

/-- Lookup in the listener's `browser_map` dict (crawl_id → visit_id). -/
def mapLookup (m : List (Int × Int)) (k : Int) : Option Int :=
  (m.find? (fun kv => kv.fst == k)).map (fun kv => kv.snd)

/-- `m[k] = v` on a Python dict: overwrite in place when `k` is present
(keeping its insertion position), append otherwise. -/
def mapInsert (m : List (Int × Int)) (k v : Int) : List (Int × Int) :=
  if (m.find? (fun kv => kv.fst == k)).isSome then
    m.map (fun kv => if kv.fst == k then (k, v) else kv)
  else
    m ++ [(k, v)]

/-- Stand-in for `json.dumps(data)` in the error-logging path (the exact
rendering is irrelevant to the protocol). -/
def dumps (data : List (String × Int)) : String := toString data

/-- State of a `BaseListener` instance (the listener process side).
Fields mirror `BaseListener.__init__` plus the ghost observation fields. -/
structure BaseListener where
  status_queue : List StatusValue
  completion_queue : List Int
  shutdown_queue : List String
  _shutdown_flag : Bool
  _last_update : Nat
  record_queue : List RawRecord
  browser_map : List (Int × Int)
  sock_closed : Bool
  log : List String
  processed : List RawRecord
  content_processed : List RawRecord
  events : List LEvent
deriving Repr, DecidableEq

/-- `should_shutdown`: non-blocking check of the shutdown channel; consumes
one element and returns `True` when nonempty, else `False` (lines 97-103). -/
def BaseListener.should_shutdown (st : BaseListener) : Bool × BaseListener :=
  match st.shutdown_queue with
  | [] => (false, st)
  | _ :: rest =>
      (true, { st with shutdown_queue := rest,
                       log := st.log ++ ["Received shutdown signal!"] })

/-- The debug line logged by `update_status_queue` (the
`threading.active_count()` part reads the runtime, not listener state, and is
omitted). -/
def statusLogMsg (qsize : Nat) : String :=
  "Status update; current record queue size: " ++ toString qsize ++ "."

/-- `update_status_queue` (lines 105-116): returns unchanged when less than
`STATUS_UPDATE_INTERVAL` has elapsed since `_last_update`; otherwise publishes
the record-queue depth on `status` and resets `_last_update`. -/
def BaseListener.update_status_queue (st : BaseListener) (now : Nat) :
    BaseListener :=
  if now - st._last_update < STATUS_UPDATE_INTERVAL then st
  else
    { st with
      status_queue := st.status_queue ++ [.sample st.record_queue.length],
      log := st.log ++ [statusLogMsg st.record_queue.length],
      _last_update := now }

/-- `mark_visit_id_done(self, visit_id)` (lines 146-152): logs and puts
`visit_id` on the completion channel. -/
def BaseListener.mark_visit_id_done (st : BaseListener) (visit_id : Int) :
    BaseListener :=
  { st with
    log := st.log ++
      ["Putting visit_id " ++ toString visit_id ++ " into queue"],
    completion_queue := st.completion_queue ++ [visit_id],
    events := st.events ++ [.completion visit_id] }

/-- The parameter names `mark_visit_id_done` declares besides `self`
(line 146: `def mark_visit_id_done(self, visit_id: int)`). -/
def markVisitIdDoneParams : List String := ["visit_id"]

/-- The message of the `TypeError` Python raises binding a keyword argument
that `mark_visit_id_done` does not declare. -/
def kwTypeErrorMsg : String :=
  "mark_visit_id_done() got an unexpected keyword argument is_shutdown"

/-- A Python call of `mark_visit_id_done` with one positional argument and the
given keyword-argument names: binding fails with `TypeError` when a keyword
does not name a declared parameter. -/
def callMarkVisitIdDone (st : BaseListener) (visit_id : Int)
    (kwargs : List String) : Except (PyError × BaseListener) BaseListener :=
  if kwargs.all (fun k => markVisitIdDoneParams.contains k) then
    .ok (st.mark_visit_id_done visit_id)
  else
    .error (.typeError kwTypeErrorMsg, st)

/-- The abstract hook `visit_done(self, visit_id, is_shutdown=False)`:
modelled as recording the invocation. -/
def BaseListener.visit_done (st : BaseListener) (visit_id : Int)
    (is_shutdown : Bool) : BaseListener :=
  { st with events := st.events ++ [.visitDone visit_id is_shutdown] }

/-- The abstract hook `process_record(self, record)`: modelled as recording
the record handed to persistence. -/
def BaseListener.process_record (st : BaseListener) (r : RawRecord) :
    BaseListener :=
  { st with processed := st.processed ++ [r] }

/-- The abstract hook `process_content(self, record)`: modelled as recording
the content record handed to persistence. -/
def BaseListener.process_content (st : BaseListener) (r : RawRecord) :
    BaseListener :=
  { st with content_processed := st.content_processed ++ [r] }

/-- `update_records(self, table, data)` (lines 118-144): extract `visit_id`
then `crawl_id` (log + drop on `KeyError`); a new `crawl_id` records the
mapping; a changed `visit_id` finalizes the previous one (completion +
`visit_done`) before updating the mapping. -/
def BaseListener.update_records (st : BaseListener) (table : String)
    (data : List (String × Int)) : BaseListener :=
  match lookupKey data "visit_id" with
  | none =>
      { st with log := st.log ++
          ["Record for table " ++ table ++ " has no visit id", dumps data] }
  | some visit_id =>
    match lookupKey data "crawl_id" with
    | none =>
        { st with log := st.log ++
            ["Record for table " ++ table ++ " has no crawl id", dumps data] }
    | some crawl_id =>
      match mapLookup st.browser_map crawl_id with
      | none =>
          { st with
            browser_map := mapInsert st.browser_map crawl_id visit_id,
            events := st.events ++ [.mapUpdate crawl_id visit_id] }
      | some mapped =>
          if mapped = visit_id then st
          else
            let st1 := st.mark_visit_id_done mapped
            let st2 := st1.visit_done mapped false
            { st2 with
              browser_map := mapInsert st2.browser_map crawl_id visit_id,
              events := st2.events ++ [.mapUpdate crawl_id visit_id] }

/-- The loop of `BaseListener.shutdown` over `browser_map.values()`
(lines 158-159): each iteration is the call
`self.mark_visit_id_done(visit_id, is_shutdown=True)`, whose keyword argument
`is_shutdown` is not a parameter of `mark_visit_id_done`. -/
def shutdownFinalizeLoop (st : BaseListener) :
    List Int → Except (PyError × BaseListener) BaseListener
  | [] => .ok st
  | visit_id :: rest =>
    match callMarkVisitIdDone st visit_id ["is_shutdown"] with
    | .ok st1 => shutdownFinalizeLoop st1 rest
    | .error e => .error e

/-- `BaseListener.shutdown` (lines 154-159): closes the socket, then iterates
over the remaining `browser_map` values. -/
def BaseListener.shutdown (st : BaseListener) :
    Except (PyError × BaseListener) BaseListener :=
  let st1 := { st with sock_closed := true }
  shutdownFinalizeLoop st1 (st1.browser_map.map (fun kv => kv.snd))

/-- The body of `drain_queue`'s while-loop: pop and `process_record` until
`record_queue` reports empty. -/
def drainLoop : Nat → BaseListener → BaseListener
  | 0, st => st
  | Nat.succ n, st =>
    match st.record_queue with
    | [] => st
    | r :: rest => drainLoop n (({ st with record_queue := rest }).process_record r)

/-- `drain_queue` (lines 161-166): sleeps `DRAIN_GRACE`, then pops every
record and hands it to `process_record`. The returned `Nat` is the slept
grace period. (`process_record` never enqueues, so fuel = initial queue length
runs the loop to emptiness.) -/
def BaseListener.drain_queue (st : BaseListener) : BaseListener × Nat :=
  (drainLoop st.record_queue.length st, DRAIN_GRACE)

/-- Outcome of an aggregator call that may block: the result (or escaping
exception) and the wall-clock time the call consumed. -/
structure CallOutcome (α : Type) where
  result : Except PyError α
  elapsed : Nat
deriving Repr

/-- State of a `BaseAggregator` instance (the manager process side).
Fields mirror `BaseAggregator.__init__`; the channel lists are the same
queues the listener writes, seen from the consuming end. -/
structure BaseAggregator where
  listener_address : Option StatusValue
  listener_process : Option Nat
  status_queue : List StatusValue
  completion_queue : List Int
  shutdown_queue : List String
  _last_status : Option StatusValue
  _last_status_received : Option Nat
deriving Repr, DecidableEq

/-- A `BaseAggregator` as `__init__` leaves it: no address, no process, empty
channels, no status ever received. -/
def BaseAggregator.init : BaseAggregator :=
  { listener_address := none
    listener_process := none
    status_queue := []
    completion_queue := []
    shutdown_queue := []
    _last_status := none
    _last_status_received := none }

/-- The message of the `RuntimeError` raised on a stale/absent status, with
`d` the elapsed seconds the format string interpolates. -/
def staleMsg (d : Nat) : String :=
  "No status update from DataAggregator listener process for " ++
    toString d ++ " seconds."

/-- The `TypeError` Python raises evaluating `time.time() - None` when the
timeout branch formats its message with `_last_status_received = None`. -/
def noneSubError : PyError :=
  .typeError "unsupported operand types for -: float and NoneType"

/-- `get_status` (lines 228-239): blocking `status_queue.get` with
`timeout=STATUS_TIMEOUT`. `arrival = some (d, v)` means the transport would
deliver `v` onto the empty channel `d` time-units after the call starts;
`none` means no value ever arrives. On success it stores the value and its
receipt time; on `queue.Empty` it formats the failure message from
`time.time() - _last_status_received`. -/
def BaseAggregator.get_status (ag : BaseAggregator) (now : Nat)
    (arrival : Option (Nat × StatusValue)) :
    CallOutcome (StatusValue × BaseAggregator) :=
  match ag.status_queue with
  | v :: rest =>
      ⟨.ok (v, { ag with status_queue := rest,
                         _last_status := some v,
                         _last_status_received := some now }), 0⟩
  | [] =>
    match arrival with
    | some (d, v) =>
      if d ≤ STATUS_TIMEOUT then
        ⟨.ok (v, { ag with _last_status := some v,
                           _last_status_received := some (now + d) }), d⟩
      else
        match ag._last_status_received with
        | none => ⟨.error noneSubError, STATUS_TIMEOUT⟩
        | some t =>
            ⟨.error (.runtimeError (staleMsg (now + STATUS_TIMEOUT - t))),
             STATUS_TIMEOUT⟩
    | none =>
      match ag._last_status_received with
      | none => ⟨.error noneSubError, STATUS_TIMEOUT⟩
      | some t =>
          ⟨.error (.runtimeError (staleMsg (now + STATUS_TIMEOUT - t))),
           STATUS_TIMEOUT⟩

/-- The drain loop of `get_most_recent_status` (lines 215-217): pop every
queued status value, overwriting `_last_status` and stamping
`_last_status_received := now` on each pop. -/
def drainStatusLoop (q : List StatusValue) (last : StatusValue)
    (lastRecv : Option Nat) (now : Nat) : StatusValue × Option Nat :=
  match q with
  | [] => (last, lastRecv)
  | v :: rest => drainStatusLoop rest v (some now) now

/-- The non-blocking branch of `get_most_recent_status` (lines 214-226),
reached when some status was received before: drain the status channel
keeping the latest value, then raise when the most recent receipt is older
than `STATUS_TIMEOUT`, else return the kept value. -/
def BaseAggregator.mostRecentResult (ag : BaseAggregator) (now : Nat)
    (s : StatusValue) : Except PyError (StatusValue × BaseAggregator) :=
  let p := drainStatusLoop ag.status_queue s ag._last_status_received now
  match p.snd with
  | none => .error noneSubError
  | some t =>
    if now - t > STATUS_TIMEOUT then
      .error (.runtimeError (staleMsg (now - t)))
    else
      .ok (p.fst,
        { ag with status_queue := [],
                  _last_status := some p.fst,
                  _last_status_received := some t })

/-- `get_most_recent_status` (lines 207-226): falls back to the blocking
`get_status` when `_last_status is None`; otherwise runs the non-blocking
drain-and-check branch, consuming no time. -/
def BaseAggregator.get_most_recent_status (ag : BaseAggregator) (now : Nat)
    (arrival : Option (Nat × StatusValue)) :
    CallOutcome (StatusValue × BaseAggregator) :=
  match ag._last_status with
  | none => ag.get_status now arrival
  | some s => ⟨ag.mostRecentResult now s, 0⟩

/-- The while-loop of `get_saved_visit_ids` (lines 247-248), appending popped
visit ids to `finished_visit_ids`. -/
def savedVisitIdsLoop : List Int → List Int → List Int
  | [], acc => acc
  | v :: rest, acc => savedVisitIdsLoop rest (acc ++ [v])

/-- `get_saved_visit_ids` (lines 241-249): non-blockingly drain the
completion channel into an ordered list. -/
def BaseAggregator.get_saved_visit_ids (ag : BaseAggregator) :
    List Int × BaseAggregator :=
  (savedVisitIdsLoop ag.completion_queue [],
   { ag with completion_queue := [] })

/-- `BaseAggregator.shutdown` (lines 263-279): put `SHUTDOWN_SIGNAL` on the
shutdown channel, `join(300)` the listener process, then clear
`listener_address` and `listener_process`. `termDelay` is the time the
listener process would still need to exit (`none` = never); the returned `Nat`
is the join's wait, capped at the 300 deadline. -/
def BaseAggregator.shutdown (ag : BaseAggregator) (termDelay : Option Nat) :
    BaseAggregator × Nat :=
  let waited := match termDelay with
    | some d => min d 300
    | none => 300
  ({ ag with shutdown_queue := ag.shutdown_queue ++ [SHUTDOWN_SIGNAL],
             listener_address := none,
             listener_process := none }, waited)

/-- Repeated calls of `should_shutdown`: `n` calls, counting how many
returned `True`. -/
def iterShouldShutdown : Nat → BaseListener → Nat × BaseListener
  | 0, st => (0, st)
  | Nat.succ n, st =>
    let p := st.should_shutdown
    let q := iterShouldShutdown n p.snd
    ((if p.fst then 1 else 0) + q.fst, q.snd)

/-- A freshly constructed `BaseListener` (as `__init__` plus `startup` leave
it, with empty channels and an empty inbound queue). -/
def emptyListener : BaseListener :=
  { status_queue := []
    completion_queue := []
    shutdown_queue := []
    _shutdown_flag := false
    _last_update := 0
    record_queue := []
    browser_map := []
    sock_closed := false
    log := []
    processed := []
    content_processed := []
    events := [] }

/-- A listener whose `browser_map` still holds two open visits (crawl 1 on
visit 10, crawl 2 on visit 20) when `shutdown` is called. -/
def exListenerC1 : BaseListener :=
  { emptyListener with browser_map := [(1, 10), (2, 20)] }

/-- A listener in which crawl 1 is currently working on visit 10. -/
def exListenerC2 : BaseListener :=
  { emptyListener with browser_map := [(1, 10)] }

/-- An aggregator that received one status sample (depth 7) at time 0 and has
nothing queued. -/
def agC5 : BaseAggregator :=
  { BaseAggregator.init with
    _last_status := some (.sample 7)
    _last_status_received := some 0 }

/-! Helper lemmas about the loops of the embedding. -/

lemma mapInsert_of_not_mem (m : List (Int × Int)) (k v : Int)
    (h : mapLookup m k = none) : mapInsert m k v = m ++ [(k, v)] := by
  unfold mapInsert
  cases hf : m.find? (fun kv => kv.fst == k) with
  | none => simp [hf]
  | some p =>
    rw [mapLookup, hf] at h
    simp at h

lemma savedVisitIdsLoop_eq (q acc : List Int) :
    savedVisitIdsLoop q acc = acc ++ q := by
  induction q generalizing acc with
  | nil => simp [savedVisitIdsLoop]
  | cons v rest ih => simp [savedVisitIdsLoop, ih]

lemma drainStatusLoop_run (q : List StatusValue) (v : StatusValue)
    (now : Nat) : drainStatusLoop q v (some now) now = (q.getLastD v, some now) := by
  induction q generalizing v with
  | nil => simp [drainStatusLoop]
  | cons w rest ih =>
    rw [drainStatusLoop, ih w, List.getLastD_cons]

lemma iterShouldShutdown_count (n : Nat) (st : BaseListener) :
    (iterShouldShutdown n st).fst = min n st.shutdown_queue.length := by
  induction n generalizing st with
  | zero => simp [iterShouldShutdown]
  | succ n ih =>
    cases hq : st.shutdown_queue with
    | nil =>
      simp [iterShouldShutdown, BaseListener.should_shutdown, hq, ih]
    | cons x rest =>
      simp [iterShouldShutdown, BaseListener.should_shutdown, hq, ih]
      omega

lemma drainLoop_fields (n : Nat) (st : BaseListener)
    (h : st.record_queue.length ≤ n) :
    (drainLoop n st).record_queue = [] ∧
    (drainLoop n st).processed = st.processed ++ st.record_queue ∧
    (drainLoop n st).content_processed = st.content_processed ∧
    (drainLoop n st).completion_queue = st.completion_queue ∧
    (drainLoop n st).events = st.events ∧
    (drainLoop n st).browser_map = st.browser_map ∧
    (drainLoop n st).status_queue = st.status_queue := by
  induction n generalizing st with
  | zero =>
    have hq : st.record_queue = [] := by
      cases hq : st.record_queue with
      | nil => rfl
      | cons a l => rw [hq] at h; simp at h
    simp [drainLoop, hq]
  | succ n ih =>
    cases hq : st.record_queue with
    | nil => simp [drainLoop, hq]
    | cons r rest =>
      have h' :
          ((({ st with record_queue := rest }) : BaseListener).process_record
            r).record_queue.length ≤ n := by
        simp [BaseListener.process_record]
        rw [hq] at h
        simpa using Nat.le_of_succ_le_succ h
      have ih' := ih _ h'
      simp [BaseListener.process_record] at ih'
      simp [drainLoop, hq, BaseListener.process_record, ih']

lemma aggregator_update_self (ag : BaseAggregator) (s : StatusValue) (t : Nat)
    (hs : ag._last_status = some s) (ht : ag._last_status_received = some t)
    (hq : ag.status_queue = []) :
    ({ ag with status_queue := ([] : List StatusValue),
               _last_status := some s,
               _last_status_received := some t } : BaseAggregator) = ag := by
  cases ag
  simp_all

/-! Claim theorems. -/

/-- C1 (code bug witnessed): at `Listener.shutdown()` with two visits still
open, the code closes the socket and then raises `TypeError` on the first
loop iteration, because line 159 passes the keyword argument
`is_shutdown=True` to `mark_visit_id_done`, which declares no such parameter.
The state carried by the escaping exception shows that no completion signal
was published and `visit_done` was never invoked, contradicting the claimed
finalization of every mapped visit with no exception. -/
theorem shutdown_raises_typeError_nonempty_map :
    exListenerC1.browser_map ≠ [] ∧
    BaseListener.shutdown exListenerC1 =
      .error (.typeError kwTypeErrorMsg,
              { exListenerC1 with sock_closed := true }) ∧
    ({ exListenerC1 with sock_closed := true } : BaseListener).completion_queue
      = [] ∧
    ({ exListenerC1 with sock_closed := true } : BaseListener).events = [] :=
  ⟨by decide, rfl, rfl, rfl⟩

/-- C3 (code bug witnessed): `get_status()` on a fresh aggregator with an
empty status channel and no arriving sample fails only after the full
`STATUS_TIMEOUT` has elapsed, but it fails with the `TypeError` produced by
evaluating `time.time() - None` (since `_last_status_received` is still
`None`), not with the "listener unresponsive" `RuntimeError` the claim
describes. -/
theorem get_status_never_received_typeError :
    (BaseAggregator.init.get_status 0 none).result = .error noneSubError ∧
    (BaseAggregator.init.get_status 0 none).elapsed = STATUS_TIMEOUT :=
  ⟨rfl, rfl⟩

/-- C6: `get_saved_visit_ids` non-blockingly drains the whole completion
channel, returning its contents in FIFO order of emission (it is empty when
nothing is pending), and a second call with no intervening completions
returns the empty list. -/
theorem get_saved_visit_ids_drains (ag : BaseAggregator) :
    (ag.get_saved_visit_ids).fst = ag.completion_queue ∧
    (ag.get_saved_visit_ids).snd.completion_queue = [] ∧
    ((ag.get_saved_visit_ids).snd.get_saved_visit_ids).fst = [] := by
  refine ⟨?_, rfl, ?_⟩ <;>
    simp [BaseAggregator.get_saved_visit_ids, savedVisitIdsLoop_eq]

/-- C7: `update_status_queue` publishes the current record-queue depth on the
status channel exactly when at least `STATUS_UPDATE_INTERVAL` time-units have
elapsed since the previous publish, and otherwise returns with the state
(including the `_last_update` timestamp) unchanged. -/
theorem update_status_queue_throttled (st : BaseListener) (now : Nat) :
    st.update_status_queue now =
      if st._last_update + STATUS_UPDATE_INTERVAL ≤ now then
        { st with
          status_queue := st.status_queue ++ [.sample st.record_queue.length],
          log := st.log ++ [statusLogMsg st.record_queue.length],
          _last_update := now }
      else st := by
  unfold BaseListener.update_status_queue STATUS_UPDATE_INTERVAL
  by_cases h : st._last_update + 5 ≤ now
  · rw [if_neg (by omega), if_pos h]
  · rw [if_pos (by omega), if_neg h]

/-- C8: `Aggregator.shutdown` publishes the shutdown sentinel exactly once on
the shutdown channel, waits for the listener process at most the 300-unit
join deadline, clears the stored rendezvous address and process handle
regardless of whether termination was observed, and leaves every other
aggregator field unchanged. -/
theorem aggregator_shutdown_frame (ag : BaseAggregator)
    (termDelay : Option Nat) :
    (ag.shutdown termDelay).fst.shutdown_queue =
      ag.shutdown_queue ++ [SHUTDOWN_SIGNAL] ∧
    (ag.shutdown termDelay).fst.listener_address = none ∧
    (ag.shutdown termDelay).fst.listener_process = none ∧
    (ag.shutdown termDelay).fst.status_queue = ag.status_queue ∧
    (ag.shutdown termDelay).fst.completion_queue = ag.completion_queue ∧
    (ag.shutdown termDelay).fst._last_status = ag._last_status ∧
    (ag.shutdown termDelay).fst._last_status_received =
      ag._last_status_received ∧
    (ag.shutdown termDelay).snd ≤ 300 := by
  unfold BaseAggregator.shutdown
  cases termDelay <;> simp

/-- C9: `should_shutdown` never blocks (it is a total function of the state);
it returns `true` exactly when the shutdown channel is nonempty, consuming
one sentinel from its front; over any number `n` of repeated calls the number
of `true` returns is `min n` (number of queued sentinels), so each sentinel
yields `true` exactly once. -/
theorem should_shutdown_consumes_sentinel (st : BaseListener) (n : Nat) :
    ((st.should_shutdown).fst = true ↔ st.shutdown_queue ≠ []) ∧
    (st.should_shutdown).snd.shutdown_queue = st.shutdown_queue.tail ∧
    (iterShouldShutdown n st).fst = min n st.shutdown_queue.length := by
  refine ⟨?_, ?_, iterShouldShutdown_count n st⟩ <;>
    cases hq : st.shutdown_queue <;>
      simp [BaseListener.should_shutdown, hq]

/-- C10: `drain_queue` sleeps the fixed 3-unit grace period, then pops every
record remaining in the inbound queue — content records included — handing
each to `process_record`; `process_content` is never invoked on this path,
and the loop stops exactly when the queue is empty. -/
theorem drain_queue_processes_all (st : BaseListener) :
    (st.drain_queue).snd = DRAIN_GRACE ∧
    (st.drain_queue).fst.record_queue = [] ∧
    (st.drain_queue).fst.processed = st.processed ++ st.record_queue ∧
    (st.drain_queue).fst.content_processed = st.content_processed ∧
    (st.drain_queue).fst.completion_queue = st.completion_queue ∧
    (st.drain_queue).fst.events = st.events ∧
    (st.drain_queue).fst.browser_map = st.browser_map := by
  have h := drainLoop_fields st.record_queue.length st (Nat.le_refl _)
  exact ⟨rfl, h.1, h.2.1, h.2.2.1, h.2.2.2.1, h.2.2.2.2.1, h.2.2.2.2.2.1⟩

/-- C2: when a record's `crawl_id` is already mapped to a different
`visit_id`, `update_records` publishes exactly one completion signal for the
previously mapped visit and invokes the `visit_done` hook for it strictly
before the mapping is updated to the new visit (the event trace shows
completion, then `visit_done`, then the map assignment); when the `crawl_id`
is new, the mapping is recorded and no completion is emitted. -/
theorem update_records_on_visit_change (st : BaseListener) (table : String)
    (data : List (String × Int)) (v c : Int)
    (hv : lookupKey data "visit_id" = some v)
    (hc : lookupKey data "crawl_id" = some c) :
    (mapLookup st.browser_map c = none →
      st.update_records table data =
        { st with
          browser_map := st.browser_map ++ [(c, v)],
          events := st.events ++ [.mapUpdate c v] }) ∧
    (∀ old, mapLookup st.browser_map c = some old → old ≠ v →
      st.update_records table data =
        { st with
          log := st.log ++
            ["Putting visit_id " ++ toString old ++ " into queue"],
          completion_queue := st.completion_queue ++ [old],
          browser_map := mapInsert st.browser_map c v,
          events := st.events ++
            [.completion old, .visitDone old false, .mapUpdate c v] }) := by
  constructor
  · intro hnone
    simp only [BaseListener.update_records, hv, hc, hnone,
      mapInsert_of_not_mem st.browser_map c v hnone]
  · intro old hold hne
    simp only [BaseListener.update_records, hv, hc, hold, if_neg hne,
      BaseListener.mark_visit_id_done, BaseListener.visit_done]
    simp

/-- Closed instance of C2's theorem: crawl 1 moves from visit 10 to visit 11;
the completion for 10 and the `visit_done` call precede the map update. -/
theorem update_records_on_visit_change_witness :
    exListenerC2.update_records "site_visits"
        [("visit_id", 11), ("crawl_id", 1)] =
      { exListenerC2 with
        log := ["Putting visit_id 10 into queue"],
        completion_queue := [10],
        browser_map := mapInsert exListenerC2.browser_map 1 11,
        events := [.completion 10, .visitDone 10 false, .mapUpdate 1 11] } := by
  have h := (update_records_on_visit_change exListenerC2 "site_visits"
      [("visit_id", 11), ("crawl_id", 1)] 11 1 rfl rfl).2 10 rfl (by decide)
  simpa [exListenerC2, emptyListener] using h

/-- C4: a record missing `visit_id` or `crawl_id` is logged and dropped by
`update_records`: the call returns normally (the embedding is a total
function), `browser_map` (VisitState) is unchanged, no completion signal or
hook event is emitted, nothing reaches the persistence hooks, and the error
log strictly grows. -/
theorem update_records_drops_malformed (st : BaseListener) (table : String)
    (data : List (String × Int))
    (h : lookupKey data "visit_id" = none ∨ lookupKey data "crawl_id" = none) :
    (st.update_records table data).browser_map = st.browser_map ∧
    (st.update_records table data).completion_queue = st.completion_queue ∧
    (st.update_records table data).events = st.events ∧
    (st.update_records table data).processed = st.processed ∧
    (st.update_records table data).content_processed = st.content_processed ∧
    st.log.length < (st.update_records table data).log.length := by
  cases hv : lookupKey data "visit_id" with
  | none => simp [BaseListener.update_records, hv]
  | some v =>
    cases h with
    | inl h0 => rw [h0] at hv; cases hv
    | inr hc => simp [BaseListener.update_records, hv, hc]

/-- Closed instance of C4's theorem: a record carrying only a `visit_id` is
dropped with the state untouched and an error logged. -/
theorem update_records_drops_malformed_witness :
    (emptyListener.update_records "javascript"
        [("visit_id", 3)]).browser_map = emptyListener.browser_map ∧
    (emptyListener.update_records "javascript"
        [("visit_id", 3)]).completion_queue =
      emptyListener.completion_queue ∧
    (emptyListener.update_records "javascript" [("visit_id", 3)]).events =
      emptyListener.events ∧
    (emptyListener.update_records "javascript" [("visit_id", 3)]).processed =
      emptyListener.processed ∧
    (emptyListener.update_records "javascript"
        [("visit_id", 3)]).content_processed =
      emptyListener.content_processed ∧
    emptyListener.log.length <
      (emptyListener.update_records "javascript" [("visit_id", 3)]).log.length :=
  update_records_drops_malformed emptyListener "javascript"
    [("visit_id", 3)] (Or.inr rfl)

/-- C5 refuted at the staleness boundary: with the only status sample
received at time 0, a `get_most_recent_status` call at time 120 succeeds
(120 is not older than the timeout), but a second call at time 124 — within
the 5-unit minimum publish interval of the first, with no new listener
activity — raises the staleness `RuntimeError` instead of returning the same
value, because 124 exceeds the 120-unit timeout. -/
theorem get_most_recent_status_two_calls_counterexample :
    (agC5.get_most_recent_status 120 none).result =
      .ok (StatusValue.sample 7, agC5) ∧
    (agC5.get_most_recent_status 120 none).elapsed = 0 ∧
    (agC5.get_most_recent_status 124 none).result =
      .error (.runtimeError (staleMsg 124)) ∧
    (agC5.get_most_recent_status 124 none).elapsed = 0 ∧
    124 - 120 < STATUS_UPDATE_INTERVAL :=
  ⟨rfl, rfl, rfl, rfl, by decide⟩

/-- C5 (amended): `get_most_recent_status` falls back to the blocking
`get_status` exactly when no status has ever been received; otherwise it
consumes no time, drains the queued status values keeping the latest, fails
with the staleness `RuntimeError` exactly when the most recent receipt is
older than `STATUS_TIMEOUT`, and otherwise returns the latest value; two
calls within the minimum publish interval with no new listener activity
return the same value without blocking, provided the last receipt is still
within the timeout at the second call. -/
theorem get_most_recent_status_correct :
    (∀ (ag : BaseAggregator) now arrival, ag._last_status = none →
      ag.get_most_recent_status now arrival = ag.get_status now arrival) ∧
    (∀ (ag : BaseAggregator) s now arrival, ag._last_status = some s →
      (ag.get_most_recent_status now arrival).elapsed = 0) ∧
    (∀ (ag : BaseAggregator) s v q now arrival, ag._last_status = some s →
      ag.status_queue = v :: q →
      (ag.get_most_recent_status now arrival).result =
        .ok (q.getLastD v,
          { ag with status_queue := [],
                    _last_status := some (q.getLastD v),
                    _last_status_received := some now })) ∧
    (∀ (ag : BaseAggregator) s t now arrival, ag._last_status = some s →
      ag._last_status_received = some t → ag.status_queue = [] →
      ((t + STATUS_TIMEOUT < now →
        (ag.get_most_recent_status now arrival).result =
          .error (.runtimeError (staleMsg (now - t)))) ∧
       (now ≤ t + STATUS_TIMEOUT →
        (ag.get_most_recent_status now arrival).result = .ok (s, ag)))) ∧
    (∀ (ag : BaseAggregator) s t now now' arrival, ag._last_status = some s →
      ag._last_status_received = some t → ag.status_queue = [] →
      now ≤ now' → now' ≤ now + STATUS_UPDATE_INTERVAL →
      now ≤ t + STATUS_TIMEOUT → now' ≤ t + STATUS_TIMEOUT →
      (ag.get_most_recent_status now arrival).result = .ok (s, ag) ∧
      (ag.get_most_recent_status now' arrival).result = .ok (s, ag)) := by
  have hEmptyFresh : ∀ (ag : BaseAggregator) s t now arrival,
      ag._last_status = some s → ag._last_status_received = some t →
      ag.status_queue = [] → now ≤ t + STATUS_TIMEOUT →
      (ag.get_most_recent_status now arrival).result = .ok (s, ag) := by
    intro ag s t now arrival hs ht hq hfresh
    simp only [BaseAggregator.get_most_recent_status, hs,
      BaseAggregator.mostRecentResult, hq, ht, drainStatusLoop]
    rw [if_neg (by omega)]
    rw [aggregator_update_self ag s t hs ht hq]
  refine ⟨?_, ?_, ?_, ?_, ?_⟩
  · intro ag now arrival h
    simp [BaseAggregator.get_most_recent_status, h]
  · intro ag s now arrival h
    simp [BaseAggregator.get_most_recent_status, h]
  · intro ag s v q now arrival hs hq
    have hp : drainStatusLoop ag.status_queue s ag._last_status_received now
        = (q.getLastD v, some now) := by
      rw [hq]
      simp [drainStatusLoop, drainStatusLoop_run]
    simp only [BaseAggregator.get_most_recent_status, hs,
      BaseAggregator.mostRecentResult, hp]
    rw [if_neg (by omega)]
  · intro ag s t now arrival hs ht hq
    refine ⟨?_, hEmptyFresh ag s t now arrival hs ht hq⟩
    intro hstale
    simp only [BaseAggregator.get_most_recent_status, hs,
      BaseAggregator.mostRecentResult, hq, ht, drainStatusLoop]
    rw [if_pos (by omega)]
  · intro ag s t now now' arrival hs ht hq h1 h2 h3 h4
    exact ⟨hEmptyFresh ag s t now arrival hs ht hq h3,
           hEmptyFresh ag s t now' arrival hs ht hq h4⟩

/-- Closed instance of C5's amended theorem: sample received at time 0, two
non-blocking calls at times 100 and 104 (within the publish interval, both
within the timeout window) return the same value. -/
theorem get_most_recent_status_correct_witness :
    (agC5.get_most_recent_status 100 none).result =
      .ok (StatusValue.sample 7, agC5) ∧
    (agC5.get_most_recent_status 104 none).result =
      .ok (StatusValue.sample 7, agC5) :=
  get_most_recent_status_correct.2.2.2.2 agC5 (.sample 7) 0 100 104 none rfl
    rfl rfl (by decide) (by decide) (by decide) (by decide)
